import Mathlib

/-!
A shallow embedding of the travertino style/layout core: the files
`src/travertino/size.py`, `src/travertino/layout.py` and
`src/travertino/declaration.py`, together with theorems settling the
behavioural claims about them.

Modelling conventions:
* Python `None`-or-value fields become `Option`.
* Python exceptions (`ValueError`) become `Option`/`Except` results.
* Python numbers are modelled with `Int` (integers) and `Rat` (floats);
  the claims under study never exercise non-rational float behaviour.
* Side effects (`apply(name, value)` callbacks, `layout.dirty(...)`
  notifications) are returned explicitly as event values.
* The node tree that `BaseBox` walks through `self.node.children` is
  modelled as a tree of nodes, each carrying an optional box
  (`child.layout` may be `None` in the source) and a list of children.
-/

set_option maxHeartbeats 1000000

namespace Travertino

/-! ### size.py -/

/-- The comparison targets Python's `at_least.__eq__` can face: an object
exposing a `.value` attribute, or one without it (a bare number, say);
`other.value` raises `AttributeError` in the second case. -/
inductive EqOperand where
  | hasValueAttr (v : Int)
  | noValueAttr (n : Int)
  deriving DecidableEq

/-- `at_least`: an annotation to wrap around a value to describe that it is
a minimum bound. -/
structure at_least where
  value : Int
  deriving DecidableEq

/-- `at_least.__eq__`: `bool(self.value == other.value)`, with
`AttributeError` (no `.value` on `other`) caught and turned into `False`. -/
def at_least.eq (a : at_least) (o : EqOperand) : Bool :=
  match o with
  | EqOperand.hasValueAttr v => decide (a.value = v)
  | EqOperand.noValueAttr _ => false

/-- An `at_least` object, viewed as a comparison operand: it exposes
`.value`. -/
def at_least.asOperand (a : at_least) : EqOperand :=
  EqOperand.hasValueAttr a.value

/-- The keyword argument with which `BaseIntrinsicSize` notifies the
attached layout object's `dirty` hook. -/
inductive DirtyEvent where
  | intrinsic_width (v : Option Int)
  | intrinsic_height (v : Option Int)
  | intrinsic_ratio (v : Option Rat)
  deriving DecidableEq

/-- `BaseIntrinsicSize`: width/height/ratio plus an (optional) attached
layout object, modelled as a `Bool` flag (the layout's only observable
behaviour, its `dirty` hook, is returned as `DirtyEvent`s). -/
structure BaseIntrinsicSize where
  layout : Bool
  width : Option Int
  height : Option Int
  ratio : Option Rat
  deriving DecidableEq

/-- `BaseIntrinsicSize.__init__(self, width, height, ratio, layout)`:
stores `layout`, `width` and `height`, and sets `self._ratio = None` --
the `ratio` argument is not stored. -/
def BaseIntrinsicSize.make (width : Option Int) (height : Option Int)
    (ratio : Option Rat) (layout : Bool) : BaseIntrinsicSize :=
  { layout := layout, width := width, height := height, ratio := Option.none }

/-- `width.setter`: on change, store and notify `dirty(intrinsic_width=value)`
when a layout is attached. -/
def BaseIntrinsicSize.set_width (s : BaseIntrinsicSize) (value : Option Int) :
    BaseIntrinsicSize × List DirtyEvent :=
  if s.width ≠ value then
    ({ s with width := value },
      if s.layout then [DirtyEvent.intrinsic_width value] else [])
  else (s, [])

/-- `height.setter`: on change, store and notify `dirty(intrinsic_height=value)`
when a layout is attached. -/
def BaseIntrinsicSize.set_height (s : BaseIntrinsicSize) (value : Option Int) :
    BaseIntrinsicSize × List DirtyEvent :=
  if s.height ≠ value then
    ({ s with height := value },
      if s.layout then [DirtyEvent.intrinsic_height value] else [])
  else (s, [])

/-- `ratio.setter`: on change, store and notify `dirty(intrinsic_ratio=value)`
when a layout is attached. -/
def BaseIntrinsicSize.set_ratio (s : BaseIntrinsicSize) (value : Option Rat) :
    BaseIntrinsicSize × List DirtyEvent :=
  if s.ratio ≠ value then
    ({ s with ratio := value },
      if s.layout then [DirtyEvent.intrinsic_ratio value] else [])
  else (s, [])

/-! ### layout.py -/

/-- The stored fields of `BaseBox`: `visible`, the content box dimensions
and offsets, and the (name-mangled private) origin coordinates. -/
structure BaseBox where
  visible : Bool
  content_width : Int
  content_height : Int
  content_top : Int
  content_left : Int
  content_bottom : Int
  content_right : Int
  origin_top : Int
  origin_left : Int
  deriving DecidableEq

/-- `absolute_content_top`: `self.__origin_top + self._content_top`. -/
def BaseBox.absolute_content_top (b : BaseBox) : Int :=
  b.origin_top + b.content_top

/-- `absolute_content_left`: `self.__origin_left + self._content_left`. -/
def BaseBox.absolute_content_left (b : BaseBox) : Int :=
  b.origin_left + b.content_left

/-- `absolute_content_bottom`. -/
def BaseBox.absolute_content_bottom (b : BaseBox) : Int :=
  b.origin_top + b.content_top + b.content_height

/-- `absolute_content_right`. -/
def BaseBox.absolute_content_right (b : BaseBox) : Int :=
  b.origin_left + b.content_left + b.content_width

/-- `width`: `self._content_left + self.content_width + self.content_right`. -/
def BaseBox.width (b : BaseBox) : Int :=
  b.content_left + b.content_width + b.content_right

/-- `height`: `self._content_top + self.content_height + self.content_bottom`. -/
def BaseBox.height (b : BaseBox) : Int :=
  b.content_top + b.content_height + b.content_bottom

/-- The field state `_reset` writes: everything zeroed, `visible = True`. -/
def zeroBox : BaseBox :=
  { visible := true, content_width := 0, content_height := 0,
    content_top := 0, content_left := 0, content_bottom := 0,
    content_right := 0, origin_top := 0, origin_left := 0 }

/-- A node in the tree `BaseBox` propagates through: each node carries an
optional box (`node.layout` may be `None`, in which case propagation skips
it) and the ordered list `node.children`. -/
inductive NTree where
  | node (layout : Option BaseBox) (children : List NTree)

/-- `node.layout`. -/
def NTree.layout : NTree → Option BaseBox
  | NTree.node b _ => b

/-- `node.children`. -/
def NTree.children : NTree → List NTree
  | NTree.node _ cs => cs

mutual

/-- `_origin_top.setter` on the node's box (a node without a box is left
untouched, matching the `if child.layout:` guard at every call site): when
the value differs from the stored one, store it and assign
`self.absolute_content_top` to every child's `_origin_top` property. -/
def set_origin_top : NTree → Int → NTree
  | NTree.node Option.none cs, _ => NTree.node Option.none cs
  | NTree.node (Option.some b) cs, value =>
    if value ≠ b.origin_top then
      let b2 := { b with origin_top := value }
      NTree.node (Option.some b2) (prop_origin_top cs (BaseBox.absolute_content_top b2))
    else NTree.node (Option.some b) cs

/-- The loop `for child in self.node.children: if child.layout:
child.layout._origin_top = v`. -/
def prop_origin_top : List NTree → Int → List NTree
  | [], _ => []
  | c :: cs, v => set_origin_top c v :: prop_origin_top cs v

end

mutual

/-- `_origin_left.setter`, analogous to `_origin_top.setter`. -/
def set_origin_left : NTree → Int → NTree
  | NTree.node Option.none cs, _ => NTree.node Option.none cs
  | NTree.node (Option.some b) cs, value =>
    if value ≠ b.origin_left then
      let b2 := { b with origin_left := value }
      NTree.node (Option.some b2) (prop_origin_left cs (BaseBox.absolute_content_left b2))
    else NTree.node (Option.some b) cs

/-- The loop `for child in self.node.children: if child.layout:
child.layout._origin_left = v`. -/
def prop_origin_left : List NTree → Int → List NTree
  | [], _ => []
  | c :: cs, v => set_origin_left c v :: prop_origin_left cs v

end

/-- `content_top.setter`: store unconditionally, then assign
`self.absolute_content_top` to every child's `_origin_top` property. -/
def set_content_top : NTree → Int → NTree
  | NTree.node Option.none cs, _ => NTree.node Option.none cs
  | NTree.node (Option.some b) cs, value =>
    let b2 := { b with content_top := value }
    NTree.node (Option.some b2) (prop_origin_top cs (BaseBox.absolute_content_top b2))

/-- `content_left.setter`: store unconditionally, then assign
`self.absolute_content_left` to every child's `_origin_left` property. -/
def set_content_left : NTree → Int → NTree
  | NTree.node Option.none cs, _ => NTree.node Option.none cs
  | NTree.node (Option.some b) cs, value =>
    let b2 := { b with content_left := value }
    NTree.node (Option.some b2) (prop_origin_left cs (BaseBox.absolute_content_left b2))

/-- `BaseBox._reset`: assign all stored fields (including the private
`__origin_top`/`__origin_left`, set to `0` directly), then assign `0` to
the `_origin_top` and `_origin_left` properties, which go through the
setters above. -/
def reset : NTree → NTree
  | NTree.node Option.none cs => NTree.node Option.none cs
  | NTree.node (Option.some _) cs =>
    set_origin_left (set_origin_top (NTree.node (Option.some zeroBox) cs) 0) 0

/-- The box of the first child of a node, when both exist. -/
def firstChildBox : NTree → Option BaseBox
  | NTree.node _ (NTree.node b _ :: _) => b
  | NTree.node _ [] => Option.none

/-! ### declaration.py -/

/-- The Python values flowing through `Choices.validate` and the property
descriptors: `None`, strings, ints, floats (modelled as rationals), and
opaque color objects (identified by a tag; the color module is an external
collaborator here). -/
inductive PyVal where
  | none
  | str (s : String)
  | int (n : Int)
  | float (q : Rat)
  | color (cid : Nat)
  deriving DecidableEq

/-- Python `==` on the values above: `None == None`, string equality,
numeric equality across `int`/`float`, color identity; every cross-kind
comparison is `False` (in particular `"none" == None` is `False`). -/
def pyEq : PyVal → PyVal → Bool
  | PyVal.none, PyVal.none => true
  | PyVal.str a, PyVal.str b => decide (a = b)
  | PyVal.int a, PyVal.int b => decide (a = b)
  | PyVal.int a, PyVal.float q => decide ((a : Rat) = q)
  | PyVal.float q, PyVal.int a => decide (q = (a : Rat))
  | PyVal.float a, PyVal.float b => decide (a = b)
  | PyVal.color a, PyVal.color b => decide (a = b)
  | _, _ => false

/-- ASCII whitespace, for modelling Python's `str.strip()`. -/
def isSpaceChar (c : Char) : Bool :=
  c == ' ' || c == '\t' || c == '\n' || c == '\r'

/-- `str.strip()` on the character list: drop whitespace at both ends. -/
def trimChars (cs : List Char) : List Char :=
  ((cs.dropWhile isSpaceChar).reverse.dropWhile isSpaceChar).reverse

/-- Value of a digit string (the caller checks all characters are digits). -/
def digitsToNat (cs : List Char) : Nat :=
  cs.foldl (fun a c => a * 10 + (c.toNat - 48)) 0

/-- Python `int(s)` on a string: strip, optional sign, then a nonempty run
of decimal digits; anything else raises `ValueError` (giving `none` here).
Underscore digit separators are not modelled. -/
def strToInt (s : String) : Option Int :=
  match trimChars s.toList with
  | [] => Option.none
  | c :: cs =>
    if c == '-' then
      if !cs.isEmpty && cs.all Char.isDigit then
        Option.some (-(digitsToNat cs : Int))
      else Option.none
    else if c == '+' then
      if !cs.isEmpty && cs.all Char.isDigit then
        Option.some ((digitsToNat cs : Int))
      else Option.none
    else if (c :: cs).all Char.isDigit then
      Option.some ((digitsToNat (c :: cs) : Int))
    else Option.none

/-- A nonempty all-digit character run, as a natural number. -/
def parseDigits (cs : List Char) : Option Nat :=
  if !cs.isEmpty && cs.all Char.isDigit then Option.some (digitsToNat cs)
  else Option.none

/-- An unsigned decimal literal `digits[.digits]` with at least one digit,
as a rational. -/
def parseDecimal (cs : List Char) : Option Rat :=
  match cs.span (fun c => c != '.') with
  | (ip, []) => (parseDigits ip).map (fun n => (n : Rat))
  | (ip, _ :: fp) =>
    if (!ip.isEmpty || !fp.isEmpty) && ip.all Char.isDigit
        && fp.all Char.isDigit && fp.all (fun c => c != '.') then
      Option.some ((digitsToNat (ip ++ fp) : Rat) / ((10 : Rat) ^ fp.length))
    else Option.none

/-- Python `float(s)` on a string: strip, optional sign, decimal literal;
exponents / `inf` / `nan` are not modelled (unused by the code under
study). -/
def strToRat (s : String) : Option Rat :=
  match trimChars s.toList with
  | '-' :: rest => (parseDecimal rest).map (fun q => -q)
  | '+' :: rest => parseDecimal rest
  | cs => parseDecimal cs

/-- Truncation toward zero, as Python's `int(float)`. -/
def ratTrunc (q : Rat) : Int :=
  q.num.tdiv (q.den : Int)

/-- `value.strip()` with `AttributeError` caught: succeeds exactly on
strings. -/
def strCoe : PyVal → Option PyVal
  | PyVal.str s => Option.some (PyVal.str (String.mk (trimChars s.toList)))
  | _ => Option.none

/-- `int(value)` with `(ValueError, TypeError)` caught. -/
def intCoe : PyVal → Option PyVal
  | PyVal.int n => Option.some (PyVal.int n)
  | PyVal.float q => Option.some (PyVal.int (ratTrunc q))
  | PyVal.str s => (strToInt s).map PyVal.int
  | _ => Option.none

/-- `float(value)` with `(ValueError, TypeError)` caught. -/
def floatCoe : PyVal → Option PyVal
  | PyVal.int n => Option.some (PyVal.float (n : Rat))
  | PyVal.float q => Option.some (PyVal.float q)
  | PyVal.str s => (strToRat s).map PyVal.float
  | _ => Option.none

/-- `Choices`: the allowed constants (Python keeps a `set`; a list keeps
the iteration order explicit) and the five kind flags. -/
structure Choices where
  constants : List PyVal
  default : Bool
  string : Bool
  integer : Bool
  number : Bool
  color : Bool

/-- `Choices.validate(value)`: try, in order, the default/`None` check,
string strip, `int` coercion, `float` coercion, color coercion (the
external color constructor is passed in as `colorFn`, with its
`ValueError` already turned into `Option.none`), then convert a literal
`"none"` to `None` and match against the constants; `Option.none` models
the final `ValueError`. -/
def Choices.validate (colorFn : PyVal → Option PyVal) (c : Choices)
    (value : PyVal) : Option PyVal :=
  if c.default = true ∧ value = PyVal.none then Option.some PyVal.none
  else
    match (if c.string then strCoe value else Option.none) with
    | Option.some r => Option.some r
    | Option.none =>
      match (if c.integer then intCoe value else Option.none) with
      | Option.some r => Option.some r
      | Option.none =>
        match (if c.number then floatCoe value else Option.none) with
        | Option.some r => Option.some r
        | Option.none =>
          match (if c.color then colorFn value else Option.none) with
          | Option.some r => Option.some r
          | Option.none =>
            let v2 := if pyEq value (PyVal.str "none") then PyVal.none else value
            c.constants.find? (fun k => pyEq v2 k)

/-- A color constructor that rejects everything; all the claims under
study disable the color kind. -/
def noColor : PyVal → Option PyVal := fun _ => Option.none

/-- Registration-time validation of a property's author-supplied initial
value: `initial_ = choices.validate(initial)` (failure is the distinct
"invalid initial value" error). -/
def validated_property_register (validateF : PyVal → Option PyVal)
    (initial : PyVal) : Option PyVal :=
  validateF initial

/-- The `getter` of `validated_property`: the stored backing value, or the
pre-validated initial value when none is stored. -/
def validated_property_getter (initial_ : PyVal) (s : Option PyVal) : PyVal :=
  s.getD initial_

/-- The `setter` of `validated_property`: validate (outer `Option.none`
models the `ValueError`); when the validated value `!=` the current
effective value, store it and call `apply(name, value)`. The result pairs
the new backing state with the argument `apply` was called with (if it
was). -/
def validated_property_setter (validateF : PyVal → Option PyVal)
    (initial_ : PyVal) (s : Option PyVal) (value : PyVal) :
    Option (Option PyVal × Option PyVal) :=
  match validateF value with
  | Option.none => Option.none
  | Option.some v =>
    if ! pyEq v (validated_property_getter initial_ s) then
      Option.some (Option.some v, Option.some v)
    else Option.some (s, Option.none)

/-- The `deleter` of `validated_property`: read the effective value,
delete the backing attribute (an absent attribute raises
`AttributeError`, caught and ignored), and call `apply(name, initial_)`
when the read value `!=` the initial one. -/
def validated_property_deleter (initial_ : PyVal) (s : Option PyVal) :
    Option PyVal × Option PyVal :=
  match s with
  | Option.some v =>
    (Option.none, if ! pyEq v initial_ then Option.some initial_ else Option.none)
  | Option.none => (Option.none, Option.none)

/-- The values a directional property can be assigned: a tuple, or a
single (non-tuple) scalar. -/
inductive DirValue where
  | scalar (v : Int)
  | tuple (vs : List Int)

/-- The four underlying scalar sub-properties (`name % "_top"` etc.) of a
directional property, under the claim's premise that they store the
assigned values. -/
structure DirState where
  top : Int
  right : Int
  bottom : Int
  left : Int
  deriving DecidableEq

/-- The message of the `ValueError` the directional `setter` raises for a
tuple of unsupported length (`\x27` is the ASCII apostrophe). -/
def shorthand_error (name : String) : String :=
  "Invalid value for \x27" ++ name ++
    "\x27; value must be an number, or a 1-4 tuple."

/-- The `getter` of `directional_property`: the `(top, right, bottom,
left)` tuple. -/
def directional_property_getter (s : DirState) : Int × Int × Int × Int :=
  (s.top, s.right, s.bottom, s.left)

/-- The `setter` of `directional_property`: a 4/3/2/1-tuple is expanded
CSS-style over the four sub-properties, any other tuple length raises the
shorthand `ValueError`, and a non-tuple scalar is assigned to all four. -/
def directional_property_setter (name : String) (value : DirValue) :
    Except String DirState :=
  match value with
  | DirValue.tuple [a, b, c, d] => Except.ok ⟨a, b, c, d⟩
  | DirValue.tuple [a, b, c] => Except.ok ⟨a, b, c, b⟩
  | DirValue.tuple [a, b] => Except.ok ⟨a, b, a, b⟩
  | DirValue.tuple [a] => Except.ok ⟨a, a, a, a⟩
  | DirValue.tuple _ => Except.error (shorthand_error name)
  | DirValue.scalar v => Except.ok ⟨v, v, v, v⟩

/-! ### Helper lemmas -/

/-- Python `==` as modelled by `pyEq` is reflexive. -/
theorem pyEq_refl (v : PyVal) : pyEq v v = true := by
  cases v <;> simp [pyEq]

/-- Only `None` compares equal to `None`. -/
theorem pyEq_none_iff (k : PyVal) : pyEq PyVal.none k = true ↔ k = PyVal.none := by
  cases k <;> simp [pyEq]

/-- Only the equal string compares equal to a string. -/
theorem pyEq_str_iff (s : String) (k : PyVal) :
    pyEq (PyVal.str s) k = true ↔ k = PyVal.str s := by
  cases k <;> simp [pyEq, eq_comm]

/-- When the only value `pyEq`-equal to `a` is `a` itself, the constant
scan of `Choices.validate` returns `a` as soon as `a` is among the
constants. -/
theorem find?_pyEq_self (a : PyVal) (ha : ∀ k, pyEq a k = true ↔ k = a) :
    ∀ l : List PyVal, a ∈ l → l.find? (fun k => pyEq a k) = Option.some a := by
  intro l
  induction l with
  | nil => intro h; cases h
  | cons x xs ih =>
    intro hl
    by_cases hx : pyEq a x = true
    · have hxa : x = a := (ha x).mp hx
      subst hxa
      simp [List.find?_cons_of_pos _ hx]
    · rw [List.find?_cons_of_neg _ hx]
      apply ih
      rcases List.mem_cons.mp hl with h | h
      · exact absurd ((ha x).mpr h.symm) hx
      · exact h

/-- Normal form of `_origin_top.setter` on a node with a box: by structure
eta the box always carries the assigned value; only the children differ
(untouched when the value was unchanged). -/
theorem set_origin_top_some (b : BaseBox) (cs : List NTree) (v : Int) :
    set_origin_top (NTree.node (Option.some b) cs) v =
      NTree.node (Option.some { b with origin_top := v })
        (if v = b.origin_top then cs
         else prop_origin_top cs (v + b.content_top)) := by
  simp only [set_origin_top, BaseBox.absolute_content_top]
  by_cases h : v = b.origin_top
  · simp [h]
  · simp [h]

/-- Normal form of `_origin_left.setter` on a node with a box. -/
theorem set_origin_left_some (b : BaseBox) (cs : List NTree) (v : Int) :
    set_origin_left (NTree.node (Option.some b) cs) v =
      NTree.node (Option.some { b with origin_left := v })
        (if v = b.origin_left then cs
         else prop_origin_left cs (v + b.content_left)) := by
  simp only [set_origin_left, BaseBox.absolute_content_left]
  by_cases h : v = b.origin_left
  · simp [h]
  · simp [h]

/-! ### Claims -/

/-- Claim C9: `at_least(v1) == at_least(v2)` iff `v1 == v2`; an `at_least`
value is never equal to an operand without a `.value` attribute, even one
numerically equal to it; and it is equal to any operand exposing a
`.value` attribute holding the same value. -/
theorem C9_at_least_eq : ∀ (v1 v2 n : Int),
    (at_least.eq (at_least.mk v1) (at_least.asOperand (at_least.mk v2)) = true ↔ v1 = v2) ∧
    at_least.eq (at_least.mk v1) (EqOperand.noValueAttr n) = false ∧
    at_least.eq (at_least.mk v1) (EqOperand.hasValueAttr v1) = true := by
  intro v1 v2 n
  exact ⟨by simp [at_least.eq, at_least.asOperand], rfl, by simp [at_least.eq]⟩

/-- Claim C10: `BaseIntrinsicSize.__init__` stores its `width` and
`height` arguments but discards `ratio` (`self._ratio = None` regardless
of the argument); only a later assignment through the `ratio` property
stores a ratio, and that assignment notifies the attached layout with
`intrinsic_ratio`. -/
theorem C10_intrinsic_ratio_discarded :
    ∀ (w h : Option Int) (r : Option Rat) (l : Bool) (q : Rat),
    (BaseIntrinsicSize.make w h r l).width = w ∧
    (BaseIntrinsicSize.make w h r l).height = h ∧
    (BaseIntrinsicSize.make w h r l).ratio = Option.none ∧
    (BaseIntrinsicSize.set_ratio (BaseIntrinsicSize.make w h r l) (Option.some q)).1.ratio
      = Option.some q ∧
    (BaseIntrinsicSize.set_ratio (BaseIntrinsicSize.make w h r true) (Option.some q)).2
      = [DirtyEvent.intrinsic_ratio (Option.some q)] := by
  intro w h r l q
  refine ⟨rfl, rfl, rfl, ?_, ?_⟩ <;>
    simp [BaseIntrinsicSize.make, BaseIntrinsicSize.set_ratio]

/-- Claim C8: for every `Choices` validator with `default=True`,
`validate(None)` returns `None`; the default/`None` check is the first
branch, so no other enabled kind can intercept a `None` input (the
conclusion holds for arbitrary settings of all other flags and an
arbitrary color constructor). -/
theorem C8_default_priority : ∀ (colorFn : PyVal → Option PyVal) (c : Choices),
    c.default = true →
    Choices.validate colorFn c PyVal.none = Option.some PyVal.none := by
  intro cf c h
  simp [Choices.validate, h]

/-- Witness for C8 at a fully-enabled concrete validator. -/
theorem C8_default_priority_witness :
    Choices.validate noColor (Choices.mk [] true true true true true) PyVal.none
      = Option.some PyVal.none :=
  C8_default_priority noColor (Choices.mk [] true true true true true) rfl

/-- Claim C6: setting a validated property to a value that validates
equal (Python `==`) to its current effective value leaves the backing
state unchanged and does not invoke `apply`. -/
theorem C6_idempotent_set : ∀ (validateF : PyVal → Option PyVal)
    (initial_ : PyVal) (s : Option PyVal) (value v : PyVal),
    validateF value = Option.some v →
    pyEq v (validated_property_getter initial_ s) = true →
    validated_property_setter validateF initial_ s value = Option.some (s, Option.none) := by
  intro f i s value v hv he
  simp [validated_property_setter, hv, he]

/-- Witness for C6: an integer validator, value `1` set on a property
whose effective value is already the initial `1`. -/
theorem C6_idempotent_set_witness :
    validated_property_setter (Choices.validate noColor (Choices.mk [] false false true false false))
      (PyVal.int 1) Option.none (PyVal.int 1) = Option.some (Option.none, Option.none) :=
  C6_idempotent_set (Choices.validate noColor (Choices.mk [] false false true false false))
    (PyVal.int 1) Option.none (PyVal.int 1) (PyVal.int 1) (by decide) (by decide)

/-- Claim C5: after a successful set, deleting the property makes the
getter return the registered (pre-validated) initial value, and the
deletion invokes `apply(name, initial_)` exactly when the effective value
at the moment of deletion differed (Python `!=`) from that initial
value. -/
theorem C5_delete_to_default : ∀ (validateF : PyVal → Option PyVal)
    (initial initial_ : PyVal) (s : Option PyVal) (value : PyVal)
    (r : Option PyVal × Option PyVal),
    validated_property_register validateF initial = Option.some initial_ →
    validated_property_setter validateF initial_ s value = Option.some r →
    validated_property_getter initial_ (validated_property_deleter initial_ r.1).1 = initial_ ∧
    (validated_property_deleter initial_ r.1).2 =
      (if pyEq (validated_property_getter initial_ r.1) initial_ then Option.none
       else Option.some initial_) := by
  intro f initial i_ s value r _ _
  constructor
  · cases h : r.1 <;> rfl
  · cases h : r.1 with
    | none =>
      simp [validated_property_deleter, validated_property_getter, pyEq_refl]
    | some u =>
      simp only [validated_property_deleter, validated_property_getter, Option.getD_some]
      rcases Bool.eq_false_or_eq_true (pyEq u i_) with hu | hu <;> simp [hu]

/-- Witness for C5: integer validator with initial `0`; after storing `2`
the deletion restores the default and reports the `apply(name, 0)`
call. -/
theorem C5_delete_to_default_witness :
    validated_property_getter (PyVal.int 0)
      (validated_property_deleter (PyVal.int 0)
        ((Option.some (PyVal.int 2), Option.some (PyVal.int 2)) :
          Option PyVal × Option PyVal).1).1 = PyVal.int 0 ∧
    (validated_property_deleter (PyVal.int 0)
      ((Option.some (PyVal.int 2), Option.some (PyVal.int 2)) :
        Option PyVal × Option PyVal).1).2 =
      (if pyEq (validated_property_getter (PyVal.int 0)
          ((Option.some (PyVal.int 2), Option.some (PyVal.int 2)) :
            Option PyVal × Option PyVal).1) (PyVal.int 0) then Option.none
       else Option.some (PyVal.int 0)) :=
  C5_delete_to_default (Choices.validate noColor (Choices.mk [] false false true false false))
    (PyVal.int 0) (PyVal.int 0) Option.none (PyVal.int 2)
    (Option.some (PyVal.int 2), Option.some (PyVal.int 2)) (by decide) (by decide)

/-- Claim C4: the directional property round-trips `(1,2,3,4)` exactly,
expands `(1,2)` to `(1,2,1,2)` and the scalar `5` to `(5,5,5,5)`, and
rejects every tuple whose length is outside 1-4 with the shorthand
`ValueError` naming the property. -/
theorem C4_directional_roundtrip : ∀ name : String,
    (directional_property_setter name (DirValue.tuple [1, 2, 3, 4])).map
      directional_property_getter = Except.ok (1, 2, 3, 4) ∧
    (directional_property_setter name (DirValue.tuple [1, 2])).map
      directional_property_getter = Except.ok (1, 2, 1, 2) ∧
    (directional_property_setter name (DirValue.scalar 5)).map
      directional_property_getter = Except.ok (5, 5, 5, 5) ∧
    ∀ vs : List Int, ¬(1 ≤ vs.length ∧ vs.length ≤ 4) →
      directional_property_setter name (DirValue.tuple vs)
        = Except.error (shorthand_error name) := by
  intro name
  refine ⟨rfl, rfl, rfl, ?_⟩
  intro vs h
  match vs with
  | [] => rfl
  | [a] => exact absurd ⟨by simp, by simp⟩ h
  | [a, b] => exact absurd ⟨by simp, by simp⟩ h
  | [a, b, c] => exact absurd ⟨by simp, by simp⟩ h
  | [a, b, c, d] => exact absurd ⟨by simp, by simp⟩ h
  | a :: b :: c :: d :: e :: rest => rfl

/-- Witness for C4: a 5-tuple assigned to `margin` raises the shorthand
error naming `margin`. -/
theorem C4_directional_roundtrip_witness :
    directional_property_setter "margin" (DirValue.tuple [1, 2, 3, 4, 5])
      = Except.error (shorthand_error "margin") :=
  (C4_directional_roundtrip "margin").2.2.2 [1, 2, 3, 4, 5] (by decide)

/-- Counterexample to claim C2: with defaulting enabled and every other
kind disabled (and no constants), `validate("none")` does not return the
default sentinel `None` -- it raises `ValueError`, because the
`"none" -> None` conversion only feeds the constant scan. -/
theorem C2_none_counterexample :
    ¬(Choices.validate noColor (Choices.mk [] true false false false false)
        (PyVal.str "none") = Option.some PyVal.none) := by
  decide

/-- Claim C2, amended: `Choices.validate` converts the literal string
`"none"` to `None` unconditionally -- whatever the `default` flag -- just
before the constant scan; with the string and color kinds disabled,
`validate("none")` returns `None` exactly when `None` is among the
constants (and raises `ValueError` otherwise). -/
theorem C2_none_amended : ∀ (colorFn : PyVal → Option PyVal) (c : Choices),
    c.string = false → c.color = false →
    (Choices.validate colorFn c (PyVal.str "none") = Option.some PyVal.none ↔
      PyVal.none ∈ c.constants) := by
  intro cf c hs hc
  have hint : intCoe (PyVal.str "none") = Option.none := rfl
  have hflt : floatCoe (PyVal.str "none") = Option.none := rfl
  have hne : pyEq (PyVal.str "none") (PyVal.str "none") = true := by decide
  simp only [Choices.validate, hs, hc, hint, hflt, hne, Bool.false_eq_true, if_false,
    ite_self, if_true, String.reduceEq, and_false, reduceCtorEq]
  constructor
  · intro h
    exact List.mem_of_find?_eq_some h
  · intro h
    exact find?_pyEq_self PyVal.none pyEq_none_iff c.constants h

/-- Witness for C2's amended claim: defaulting enabled, `None` among the
constants. -/
theorem C2_none_amended_witness :
    Choices.validate noColor (Choices.mk [PyVal.none] true false false false false)
        (PyVal.str "none") = Option.some PyVal.none ↔
      PyVal.none ∈ (Choices.mk [PyVal.none] true false false false false).constants :=
  C2_none_amended noColor (Choices.mk [PyVal.none] true false false false false) rfl rfl

/-- Counterexample to claim C7: when the string constant is the literal
string `"none"`, a validator with `integer=True` and the string, number
and color kinds disabled rejects it instead of returning it -- the
unconditional `"none" -> None` conversion spoils the constant match. -/
theorem C7_fallthrough_counterexample :
    ¬(Choices.validate noColor (Choices.mk [PyVal.str "none"] false false true false false)
        (PyVal.str "none") = Option.some (PyVal.str "none")) := by
  decide

/-- Claim C7, amended: for a `Choices` validator with `integer` enabled
and the string, number and color kinds disabled, `validate` of a string
constant that is not a valid integer literal -- and is not the reserved
literal `"none"` -- succeeds and returns that constant: the failed `int`
coercion falls through silently to the constant scan. -/
theorem C7_fallthrough_amended : ∀ (colorFn : PyVal → Option PyVal)
    (c : Choices) (s : String),
    c.string = false → c.integer = true → c.number = false → c.color = false →
    intCoe (PyVal.str s) = Option.none → s ≠ "none" →
    PyVal.str s ∈ c.constants →
    Choices.validate colorFn c (PyVal.str s) = Option.some (PyVal.str s) := by
  intro cf c s hs hi hn hc hint hsn hmem
  have hne : pyEq (PyVal.str s) (PyVal.str "none") = false := by
    simp [pyEq, hsn]
  simp only [Choices.validate, hs, hi, hn, hc, hint, hne, Bool.false_eq_true, if_false,
    if_true, and_false, reduceCtorEq]
  exact find?_pyEq_self (PyVal.str s) (pyEq_str_iff s) c.constants hmem

/-- Witness for C7's amended claim: the constant `"left"` with
`integer=True`. -/
theorem C7_fallthrough_amended_witness :
    Choices.validate noColor (Choices.mk [PyVal.str "left"] false false true false false)
      (PyVal.str "left") = Option.some (PyVal.str "left") :=
  C7_fallthrough_amended noColor (Choices.mk [PyVal.str "left"] false false true false false)
    "left" rfl rfl rfl rfl rfl (by decide) (by decide)

/-- Claim C1: with a child box attached through the node's child list, a
parent whose origin is `(0, 0)` and whose `content_top`/`content_left`
are set to `10`/`5` through the properties gives the child absolute
content coordinates `10 + child.content_top` and `5 + child.content_left`;
moving the parent's origin to `(100, 100)` through the private origin
setters updates them to `110 + child.content_top` and
`105 + child.content_left`, with no manual propagation call. -/
theorem C1_origin_propagation (pb cb : BaseBox) (gcs rest : List NTree)
    (hpt : pb.origin_top = 0) (hpl : pb.origin_left = 0) :
    let t1 := set_content_left
      (set_content_top
        (NTree.node (Option.some pb) (NTree.node (Option.some cb) gcs :: rest)) 10) 5
    let t2 := set_origin_left (set_origin_top t1 100) 100
    (firstChildBox t1).map BaseBox.absolute_content_top
        = Option.some (10 + cb.content_top) ∧
    (firstChildBox t1).map BaseBox.absolute_content_left
        = Option.some (5 + cb.content_left) ∧
    (firstChildBox t2).map BaseBox.absolute_content_top
        = Option.some (110 + cb.content_top) ∧
    (firstChildBox t2).map BaseBox.absolute_content_left
        = Option.some (105 + cb.content_left) := by
  simp only [set_content_top, set_content_left, set_origin_top_some, set_origin_left_some,
    prop_origin_top, prop_origin_left, firstChildBox, BaseBox.absolute_content_top,
    BaseBox.absolute_content_left, hpt, hpl]
  norm_num [BaseBox.absolute_content_top, BaseBox.absolute_content_left]

/-- Witness for C1 at zeroed parent and child boxes with no further
children. -/
theorem C1_origin_propagation_witness :
    let t1 := set_content_left
      (set_content_top
        (NTree.node (Option.some zeroBox) (NTree.node (Option.some zeroBox) [] :: [])) 10) 5
    let t2 := set_origin_left (set_origin_top t1 100) 100
    (firstChildBox t1).map BaseBox.absolute_content_top
        = Option.some (10 + zeroBox.content_top) ∧
    (firstChildBox t1).map BaseBox.absolute_content_left
        = Option.some (5 + zeroBox.content_left) ∧
    (firstChildBox t2).map BaseBox.absolute_content_top
        = Option.some (110 + zeroBox.content_top) ∧
    (firstChildBox t2).map BaseBox.absolute_content_left
        = Option.some (105 + zeroBox.content_left) :=
  C1_origin_propagation zeroBox zeroBox [] [] rfl rfl

/-- The failing input for claim C3: a parent box at origin `(100, 100)`
whose child box (correctly) sits at origin `(110, 105)`. -/
def tC3 : NTree :=
  NTree.node (Option.some { zeroBox with origin_top := 100, origin_left := 100 })
    [NTree.node (Option.some { zeroBox with origin_top := 110, origin_left := 105 }) []]

/-- Claim C3 fails on the code: `_reset` zeroes the box's own geometry
and origin, but because `__origin_top`/`__origin_left` are assigned `0`
directly before the `_origin_top = 0` / `_origin_left = 0` property
assignments, the setters see an unchanged value and never push the origin
to the children -- the child box is left untouched at origin `110`, where
a push would have assigned the parent's new `absolute_content_top`,
`0`. -/
theorem C3_reset_no_push :
    reset tC3 = NTree.node (Option.some zeroBox)
      [NTree.node (Option.some { zeroBox with origin_top := 110, origin_left := 105 }) []] ∧
    (firstChildBox (reset tC3)).map BaseBox.origin_top = Option.some 110 ∧
    ¬((firstChildBox (reset tC3)).map BaseBox.origin_top
        = Option.some (BaseBox.absolute_content_top zeroBox)) :=
  ⟨rfl, rfl, by decide⟩

end Travertino
